import Mathlib

/-!
Shallow embedding of `src/main.py` (backendui): the command dispatch queue,
the player-state store, and the pydantic data models with their
deserialization defaults.

Conventions of the embedding:
* A JSON wire field is a `JField α`: it is `omitted` (key absent from the
  body), `null` (key present with JSON null), or `given a` (key present with
  a well-typed value).  Pydantic v1 semantics for a field declared
  `x: Optional[T] = d` are: omitted ↦ `d`, null ↦ `None`, value ↦ the value.
  A field declared `x: T` (required) fails validation unless a value is given.
* Python floats are modelled as `Rat` (no claim depends on float rounding).
* `dict`s keyed by strings are insertion-ordered association lists, with
  Python's `d[k] = v` update semantics (`dictInsert`).
* Each FastAPI handler is a pure function from the server state (the two
  module-level globals `command_queue` and `player_data`) and the parsed
  body to the new state and the response.  FastAPI validates the body before
  the handler runs; `post_api_command` / `post_api_coords` model the
  endpoint including that validation step.
-/

namespace BackendUI

/-- An arbitrary JSON value, for the `Dict[str, Any]` tag maps (`nbtTags`). -/
inductive JsonVal where
  | str (s : String)
  | num (q : Rat)
  | bool (b : Bool)
  | null
  | arr (xs : List JsonVal)
  | obj (fields : List (String × JsonVal))

/-- One field of a JSON request body: absent key, explicit null, or a value. -/
inductive JField (α : Type) where
  | omitted
  | null
  | given (a : α)
  deriving DecidableEq

/-- Pydantic parsing of a required field `x: T`: anything but a value fails. -/
def JField.reqPrim {α : Type} : JField α → Option α
  | .given a => some a
  | _ => none

/-- Pydantic parsing of `x: Optional[T] = d`: omitted ↦ default `d`,
null ↦ `None`, value ↦ the value.  Never fails. -/
def JField.optPrim {α : Type} (d : Option α) : JField α → Option α
  | .omitted => d
  | .null => none
  | .given a => some a

/-- Pydantic parsing of a required nested-model field: a value must be given
and must itself validate. -/
def JField.reqSub {α β : Type} (p : β → Option α) : JField β → Option α
  | .given b => p b
  | _ => none

/-- Pydantic parsing of an optional nested-model field with default `d`:
omitted ↦ `d`, null ↦ `None`, value ↦ the value, which must validate. -/
def JField.optSub {α β : Type} (d : Option α) (p : β → Option α) :
    JField β → Option (Option α)
  | .omitted => some d
  | .null => some none
  | .given b => (p b).map some

/-! ### Parsed models (the pydantic `BaseModel`s of `src/main.py`) -/

structure CoordsInfo where
  x : Rat
  y : Rat
  z : Rat
  world : String
  deriving DecidableEq

structure EnchantmentInfo where
  type : String
  level : Int
  deriving DecidableEq

structure AttributeModifierInfo where
  «attribute» : String
  name : String
  amount : Rat
  operation : String
  slot : Option String
  deriving DecidableEq

structure ItemInfo where
  material : String
  amount : Int
  displayName : Option String
  damage : Option Int
  maxDurability : Option Int
  durabilityPercentage : Option Rat
  enchantments : Option (List EnchantmentInfo)
  lore : Option (List String)
  customModelData : Option Int
  attributeModifiers : Option (List AttributeModifierInfo)
  itemFlags : Option (List String)
  nbtTags : Option (List (String × JsonVal))

structure ArmorInfo where
  helmet : Option ItemInfo
  chestplate : Option ItemInfo
  leggings : Option ItemInfo
  boots : Option ItemInfo

structure PotionEffectInfo where
  type : String
  amplifier : Int
  duration : Int
  durationSeconds : Rat
  isAmbient : Bool
  hasParticles : Bool
  hasIcon : Bool
  source : Option String
  deriving DecidableEq

structure EntityInfo where
  name : String
  type : String
  distance : Rat
  location : CoordsInfo
  deriving DecidableEq

structure StatusInfo where
  health : Rat
  maxHealth : Rat
  absorption : Option Rat
  foodLevel : Int
  saturation : Rat
  exhaustion : Rat
  level : Int
  exp : Rat
  totalExp : Int
  gameMode : String
  isOp : Bool
  isFlying : Bool
  allowFlight : Bool
  isSneaking : Bool
  isSprinting : Bool
  isSwimming : Bool
  isGliding : Bool
  isBlocking : Bool
  effects : List PotionEffectInfo
  deriving DecidableEq

structure WorldInfo where
  name : String
  weather : String
  isRaining : Bool
  isThundering : Bool
  temperature : Rat
  humidity : Rat
  time : Int
  timeOfDay : String
  deriving DecidableEq

structure PlayerInfo where
  name : String
  coords : CoordsInfo
  inventory : Option (List ItemInfo)
  armor : Option ArmorInfo
  offhand : Option ItemInfo
  enderChest : Option (List ItemInfo)
  status : Option StatusInfo
  world : Option WorldInfo
  nearbyEntities : Option (List EntityInfo)
  currentAction : Option String
  heldItem : Option ItemInfo

structure Command where
  player : Option String
  command : String
  args : List String
  deriving DecidableEq

structure InventoryChange where
  player : String
  action : String
  item : String
  deriving DecidableEq

/-! ### Wire inputs (request bodies before pydantic validation) -/

structure CoordsInfoInput where
  x : JField Rat
  y : JField Rat
  z : JField Rat
  world : JField String

structure EnchantmentInfoInput where
  type : JField String
  level : JField Int

structure AttributeModifierInfoInput where
  «attribute» : JField String
  name : JField String
  amount : JField Rat
  operation : JField String
  slot : JField String

structure ItemInfoInput where
  material : JField String
  amount : JField Int
  displayName : JField String
  damage : JField Int
  maxDurability : JField Int
  durabilityPercentage : JField Rat
  enchantments : JField (List EnchantmentInfoInput)
  lore : JField (List String)
  customModelData : JField Int
  attributeModifiers : JField (List AttributeModifierInfoInput)
  itemFlags : JField (List String)
  nbtTags : JField (List (String × JsonVal))

structure ArmorInfoInput where
  helmet : JField ItemInfoInput
  chestplate : JField ItemInfoInput
  leggings : JField ItemInfoInput
  boots : JField ItemInfoInput

structure PotionEffectInfoInput where
  type : JField String
  amplifier : JField Int
  duration : JField Int
  durationSeconds : JField Rat
  isAmbient : JField Bool
  hasParticles : JField Bool
  hasIcon : JField Bool
  source : JField String

structure EntityInfoInput where
  name : JField String
  type : JField String
  distance : JField Rat
  location : JField CoordsInfoInput

structure StatusInfoInput where
  health : JField Rat
  maxHealth : JField Rat
  absorption : JField Rat
  foodLevel : JField Int
  saturation : JField Rat
  exhaustion : JField Rat
  level : JField Int
  exp : JField Rat
  totalExp : JField Int
  gameMode : JField String
  isOp : JField Bool
  isFlying : JField Bool
  allowFlight : JField Bool
  isSneaking : JField Bool
  isSprinting : JField Bool
  isSwimming : JField Bool
  isGliding : JField Bool
  isBlocking : JField Bool
  effects : JField (List PotionEffectInfoInput)

structure WorldInfoInput where
  name : JField String
  weather : JField String
  isRaining : JField Bool
  isThundering : JField Bool
  temperature : JField Rat
  humidity : JField Rat
  time : JField Int
  timeOfDay : JField String

structure PlayerInfoInput where
  name : JField String
  coords : JField CoordsInfoInput
  inventory : JField (List ItemInfoInput)
  armor : JField ArmorInfoInput
  offhand : JField ItemInfoInput
  enderChest : JField (List ItemInfoInput)
  status : JField StatusInfoInput
  world : JField WorldInfoInput
  nearbyEntities : JField (List EntityInfoInput)
  currentAction : JField String
  heldItem : JField ItemInfoInput

structure CommandInput where
  player : JField String
  command : JField String
  args : JField (List String)

structure InventoryChangeInput where
  player : JField String
  action : JField String
  item : JField String

/-! ### Validation (pydantic model construction, field defaults as in the
source: `class CoordsInfo` … `class InventoryChange` of `src/main.py`) -/

def parseCoordsInfo (i : CoordsInfoInput) : Option CoordsInfo :=
  match i.x.reqPrim, i.y.reqPrim, i.z.reqPrim, i.world.reqPrim with
  | some x, some y, some z, some world => some ⟨x, y, z, world⟩
  | _, _, _, _ => none

def parseEnchantmentInfo (i : EnchantmentInfoInput) : Option EnchantmentInfo :=
  match i.type.reqPrim, i.level.reqPrim with
  | some t, some level => some ⟨t, level⟩
  | _, _ => none

def parseAttributeModifierInfo (i : AttributeModifierInfoInput) :
    Option AttributeModifierInfo :=
  match i.«attribute».reqPrim, i.name.reqPrim, i.amount.reqPrim,
    i.operation.reqPrim with
  | some attr, some name, some amount, some operation =>
      some ⟨attr, name, amount, operation, i.slot.optPrim none⟩
  | _, _, _, _ => none

def parseItemInfo (i : ItemInfoInput) : Option ItemInfo :=
  match i.material.reqPrim, i.amount.reqPrim,
    i.enchantments.optSub (some []) (List.mapM parseEnchantmentInfo),
    i.attributeModifiers.optSub (some []) (List.mapM parseAttributeModifierInfo) with
  | some material, some amount, some enchantments, some attributeModifiers =>
      some ⟨material, amount, i.displayName.optPrim (some ""),
        i.damage.optPrim (some 0), i.maxDurability.optPrim (some 0),
        i.durabilityPercentage.optPrim (some 100), enchantments,
        i.lore.optPrim (some []), i.customModelData.optPrim none,
        attributeModifiers, i.itemFlags.optPrim (some []),
        i.nbtTags.optPrim (some [])⟩
  | _, _, _, _ => none

def parseArmorInfo (i : ArmorInfoInput) : Option ArmorInfo :=
  match i.helmet.optSub none parseItemInfo, i.chestplate.optSub none parseItemInfo,
    i.leggings.optSub none parseItemInfo, i.boots.optSub none parseItemInfo with
  | some helmet, some chestplate, some leggings, some boots =>
      some ⟨helmet, chestplate, leggings, boots⟩
  | _, _, _, _ => none

def parsePotionEffectInfo (i : PotionEffectInfoInput) : Option PotionEffectInfo :=
  match i.type.reqPrim, i.amplifier.reqPrim, i.duration.reqPrim,
    i.durationSeconds.reqPrim, i.isAmbient.reqPrim, i.hasParticles.reqPrim,
    i.hasIcon.reqPrim with
  | some t, some amplifier, some duration, some durationSeconds, some isAmbient,
    some hasParticles, some hasIcon =>
      some ⟨t, amplifier, duration, durationSeconds, isAmbient, hasParticles,
        hasIcon, i.source.optPrim (some "unknown")⟩
  | _, _, _, _, _, _, _ => none

def parseEntityInfo (i : EntityInfoInput) : Option EntityInfo :=
  match i.name.reqPrim, i.type.reqPrim, i.distance.reqPrim,
    i.location.reqSub parseCoordsInfo with
  | some name, some t, some distance, some location =>
      some ⟨name, t, distance, location⟩
  | _, _, _, _ => none

def parseStatusInfo (i : StatusInfoInput) : Option StatusInfo :=
  match i.health.reqPrim, i.maxHealth.reqPrim, i.foodLevel.reqPrim,
    i.saturation.reqPrim, i.exhaustion.reqPrim, i.level.reqPrim, i.exp.reqPrim,
    i.totalExp.reqPrim, i.gameMode.reqPrim, i.isOp.reqPrim, i.isFlying.reqPrim,
    i.allowFlight.reqPrim, i.isSneaking.reqPrim, i.isSprinting.reqPrim,
    i.isSwimming.reqPrim, i.isGliding.reqPrim, i.isBlocking.reqPrim,
    i.effects.reqSub (List.mapM parsePotionEffectInfo) with
  | some health, some maxHealth, some foodLevel, some saturation, some exhaustion,
    some level, some e, some totalExp, some gameMode, some isOp, some isFlying,
    some allowFlight, some isSneaking, some isSprinting, some isSwimming,
    some isGliding, some isBlocking, some effects =>
      some ⟨health, maxHealth, i.absorption.optPrim (some 0), foodLevel, saturation,
        exhaustion, level, e, totalExp, gameMode, isOp, isFlying, allowFlight,
        isSneaking, isSprinting, isSwimming, isGliding, isBlocking, effects⟩
  | _, _, _, _, _, _, _, _, _, _, _, _, _, _, _, _, _, _ => none

def parseWorldInfo (i : WorldInfoInput) : Option WorldInfo :=
  match i.name.reqPrim, i.weather.reqPrim, i.isRaining.reqPrim,
    i.isThundering.reqPrim, i.temperature.reqPrim, i.humidity.reqPrim,
    i.time.reqPrim, i.timeOfDay.reqPrim with
  | some name, some weather, some isRaining, some isThundering, some temperature,
    some humidity, some time, some timeOfDay =>
      some ⟨name, weather, isRaining, isThundering, temperature, humidity, time,
        timeOfDay⟩
  | _, _, _, _, _, _, _, _ => none

def parsePlayerInfo (i : PlayerInfoInput) : Option PlayerInfo :=
  match i.name.reqPrim, i.coords.reqSub parseCoordsInfo,
    i.inventory.optSub (some []) (List.mapM parseItemInfo),
    i.armor.optSub none parseArmorInfo,
    i.offhand.optSub none parseItemInfo,
    i.enderChest.optSub (some []) (List.mapM parseItemInfo),
    i.status.optSub none parseStatusInfo,
    i.world.optSub none parseWorldInfo,
    i.nearbyEntities.optSub (some []) (List.mapM parseEntityInfo),
    i.heldItem.optSub none parseItemInfo with
  | some name, some coords, some inventory, some armor, some offhand,
    some enderChest, some status, some world, some nearbyEntities, some heldItem =>
      some ⟨name, coords, inventory, armor, offhand, enderChest, status, world,
        nearbyEntities, i.currentAction.optPrim (some "idle"), heldItem⟩
  | _, _, _, _, _, _, _, _, _, _ => none

def parseCommand (i : CommandInput) : Option Command :=
  match i.command.reqPrim, i.args.reqPrim with
  | some command, some args => some ⟨i.player.optPrim none, command, args⟩
  | _, _ => none

def parseInventoryChange (i : InventoryChangeInput) : Option InventoryChange :=
  match i.player.reqPrim, i.action.reqPrim, i.item.reqPrim with
  | some player, some action, some item => some ⟨player, action, item⟩
  | _, _, _ => none

/-! ### Server state and handlers

The module-level globals of `src/main.py` are `command_queue` (a Python list
of command dicts; a dict produced by `Command.dict()` has exactly the keys
`player`/`command`/`args`, the same shape `change_inventory` builds by hand,
so the queue is a `List Command`) and `player_data` (a `Dict[str, ...]`,
modelled as an insertion-ordered association list with Python dict-update
semantics). -/

structure ServerState where
  command_queue : List Command
  player_data : List (String × PlayerInfo)

/-- Python `d[k] = v` on an insertion-ordered dict: replace the value in
place if the key exists, otherwise append the binding at the end. -/
def dictInsert {α : Type} (m : List (String × α)) (k : String) (v : α) :
    List (String × α) :=
  match m with
  | [] => [(k, v)]
  | (k', v') :: rest =>
    if k' = k then (k, v) :: rest else (k', v') :: dictInsert rest k v

/-- Python `d.get(k)`: the value bound to `k`, if any. -/
def dictGet {α : Type} (m : List (String × α)) (k : String) : Option α :=
  match m with
  | [] => none
  | (k', v') :: rest => if k' = k then some v' else dictGet rest k

/-- `POST /api/command` (`receive_command`): appends the validated command to
the tail of `command_queue` and echoes it back. -/
def receive_command (s : ServerState) (cmd : Command) : ServerState × Command :=
  ({ s with command_queue := s.command_queue ++ [cmd] }, cmd)

/-- `GET /api/command` (`get_next_command`): `command_queue.pop(0)` guarded by
a non-emptiness test; on an empty queue the response carries `None`. -/
def get_next_command (s : ServerState) : ServerState × Option Command :=
  match s.command_queue with
  | [] => (s, none)
  | c :: rest => ({ s with command_queue := rest }, some c)

/-- `POST /api/coords` (`update_player_info`): `player_data[info.name] = info.dict()`
under `player_data_lock`. -/
def update_player_info (s : ServerState) (info : PlayerInfo) : ServerState :=
  { s with player_data := dictInsert s.player_data info.name info }

/-- `GET /api/coords` (`get_all_player_info`): returns `player_data` under the
lock. -/
def get_all_player_info (s : ServerState) : List (String × PlayerInfo) :=
  s.player_data

/-- Outcome of `POST /api/coords/inventory`: the 400 response for an invalid
action, or the acknowledgement echoing the queued command. -/
inductive ChangeResult where
  | badRequest
  | queued (cmd : Command)
  deriving DecidableEq

/-- `POST /api/coords/inventory` (`change_inventory`): rejects with a 400 when
`change.action not in ["add", "remove"]`, otherwise appends one
`inventory_edit` command for the given player. -/
def change_inventory (s : ServerState) (change : InventoryChange) :
    ServerState × ChangeResult :=
  if change.action ∉ (["add", "remove"] : List String) then
    (s, .badRequest)
  else
    let cmd : Command := ⟨some change.player, "inventory_edit", [change.action, change.item]⟩
    ({ s with command_queue := s.command_queue ++ [cmd] }, .queued cmd)

/-- The `POST /api/command` endpoint including FastAPI body validation: an
invalid body is rejected with a 422 before the handler runs, leaving the
state untouched (`none` response). -/
def post_api_command (s : ServerState) (body : CommandInput) :
    ServerState × Option Command :=
  match parseCommand body with
  | some cmd =>
    let r := receive_command s cmd
    (r.1, some r.2)
  | none => (s, none)

/-- The `POST /api/coords` endpoint including FastAPI body validation: an
invalid body is rejected with a 422 before the handler runs, leaving the
state untouched (`false` result). -/
def post_api_coords (s : ServerState) (body : PlayerInfoInput) :
    ServerState × Bool :=
  match parsePlayerInfo body with
  | some info => (update_player_info s info, true)
  | none => (s, false)

/-- `n` consecutive polls of `GET /api/command`.  Each poll is one atomic
step (the handler never yields control between the emptiness test and the
`pop(0)`), so any serialization of `n` concurrent polls is this fold. -/
def dequeueN : Nat → ServerState → List (Option Command) × ServerState
  | 0, s => ([], s)
  | n + 1, s =>
    let r := get_next_command s
    let rest := dequeueN n r.1
    (r.2 :: rest.1, rest.2)

/-! ### Concrete sample data -/

/-- A well-formed coordinates body. -/
def sampleCoordsInput : CoordsInfoInput :=
  ⟨.given 0, .given 64, .given 0, .given "world"⟩

/-- A snapshot body for `"Alice"` carrying only the required fields; every
optional field is omitted. -/
def samplePlayerInput : PlayerInfoInput :=
  ⟨.given "Alice", .given sampleCoordsInput, .omitted, .omitted, .omitted,
   .omitted, .omitted, .omitted, .omitted, .omitted, .omitted⟩

/-- What `samplePlayerInput` validates to under the pydantic defaults. -/
def samplePlayer : PlayerInfo :=
  ⟨"Alice", ⟨0, 64, 0, "world"⟩, some [], none, none, some [], none, none,
   some [], some "idle", none⟩

/-- A second snapshot for `"Alice"` with a different position and action. -/
def samplePlayer2 : PlayerInfo :=
  ⟨"Alice", ⟨10, 70, -3, "world_nether"⟩, some [], none, none, some [], none,
   none, some [], some "mining", none⟩

/-- A snapshot for `"Bob"`. -/
def samplePlayerBob : PlayerInfo :=
  ⟨"Bob", ⟨1, 2, 3, "world"⟩, some [], none, none, some [], none, none,
   some [], some "idle", none⟩

/-- An item body carrying only the required fields; every optional field is
omitted. -/
def sampleItemInput : ItemInfoInput :=
  ⟨.given "stone", .given 1, .omitted, .omitted, .omitted, .omitted, .omitted,
   .omitted, .omitted, .omitted, .omitted, .omitted⟩

/-- A snapshot body missing the required `coords` field. -/
def missingCoordsInput : PlayerInfoInput :=
  ⟨.given "Alice", .omitted, .omitted, .omitted, .omitted, .omitted, .omitted,
   .omitted, .omitted, .omitted, .omitted⟩

/-- The command body `{"player": "Alice", "command": "give",
"args": ["diamond_sword", "1"]}`. -/
def aliceGiveInput : CommandInput :=
  ⟨.given "Alice", .given "give", .given ["diamond_sword", "1"]⟩

/-- The command `aliceGiveInput` validates to. -/
def aliceGive : Command := ⟨some "Alice", "give", ["diamond_sword", "1"]⟩

/-- A command body with the `player` key absent. -/
def untargetedInput : CommandInput := ⟨.omitted, .given "say", .given []⟩

/-- The command `untargetedInput` validates to. -/
def untargetedSay : Command := ⟨none, "say", []⟩

/-- The absence invariant exactly as the specification states it, formalized
for the optional fields the specification names: a snapshot published with an
optional field omitted reads back with that field absent (`None`) — here
`armor` and `currentAction` of a `PlayerInfo`, and `displayName` and
`durabilityPercentage` of an `ItemInfo`. -/
def absentFieldsReadBackAbsent : Prop :=
  ∀ (s : ServerState) (inp : PlayerInfoInput) (p : PlayerInfo),
    parsePlayerInfo inp = some p →
      (inp.armor = .omitted →
        (dictGet (get_all_player_info (update_player_info s p)) p.name).map
          PlayerInfo.armor = some none) ∧
      (inp.currentAction = .omitted →
        (dictGet (get_all_player_info (update_player_info s p)) p.name).map
          PlayerInfo.currentAction = some none) ∧
      (∀ (ii : ItemInfoInput) (it : ItemInfo), parseItemInfo ii = some it →
        (ii.displayName = .omitted → it.displayName = none) ∧
        (ii.durabilityPercentage = .omitted → it.durabilityPercentage = none))

/-- What `sampleItemInput` validates to under the pydantic defaults. -/
def sampleItem : ItemInfo :=
  ⟨"stone", 1, some "", some 0, some 0, some 100, some [], some [], none,
   some [], some [], some []⟩

/-! ### Dict lemmas -/

theorem dictGet_dictInsert_self {α : Type} (m : List (String × α)) (k : String)
    (v : α) : dictGet (dictInsert m k v) k = some v := by
  induction m with
  | nil => simp [dictInsert, dictGet]
  | cons hd tl ih =>
    obtain ⟨k', v'⟩ := hd
    by_cases h : k' = k
    · simp [dictInsert, dictGet, h]
    · simp [dictInsert, dictGet, h, ih]

theorem dictGet_dictInsert_ne {α : Type} (m : List (String × α)) (k k' : String)
    (v : α) (h : k' ≠ k) : dictGet (dictInsert m k v) k' = dictGet m k' := by
  induction m with
  | nil => simp [dictInsert, dictGet, Ne.symm h]
  | cons hd tl ih =>
    obtain ⟨k₀, v₀⟩ := hd
    by_cases h0 : k₀ = k
    · subst h0
      simp [dictInsert, dictGet, Ne.symm h]
    · by_cases h1 : k₀ = k'
      · simp [dictInsert, dictGet, h0, h1, h]
      · simp [dictInsert, dictGet, h0, h1, ih]

/-! ### Claims -/

/-- C1: the dispatch queue is strictly FIFO: enqueueing arbitrary commands
`a`, `b`, `c` (whatever their targets) via `receive_command` in that order and
polling three times via `get_next_command` returns exactly `a`, `b`, `c` in
that order — there is no per-target sub-queue and no priority. -/
theorem dispatch_queue_fifo (pd : List (String × PlayerInfo)) (a b c : Command) :
    let s3 := (receive_command ((receive_command ((receive_command
      ⟨[], pd⟩ a).1) b).1) c).1
    let p1 := get_next_command s3
    let p2 := get_next_command p1.1
    let p3 := get_next_command p2.1
    p1.2 = some a ∧ p2.2 = some b ∧ p3.2 = some c := by
  simp [receive_command, get_next_command]

/-- C4: queue polls are atomic steps (the handler body never yields between
the emptiness test and the `pop(0)`), so any serialization of `N` concurrent
polls against a queue holding `K` commands is `dequeueN N`; its non-empty
results are exactly the first `min N K` queued commands, in order — delivery
is exactly-once, with no duplicate and no drop — and the remaining queue is
the rest. -/
theorem concurrent_dequeue_exactly_once (n : Nat) (s : ServerState) :
    (dequeueN n s).1.filterMap id = s.command_queue.take n ∧
    ((dequeueN n s).1.filterMap id).length = min n s.command_queue.length ∧
    (dequeueN n s).2.command_queue = s.command_queue.drop n := by
  suffices h : ∀ (n : Nat) (s : ServerState),
      (dequeueN n s).1.filterMap id = s.command_queue.take n ∧
      (dequeueN n s).2.command_queue = s.command_queue.drop n by
    obtain ⟨h1, h2⟩ := h n s
    exact ⟨h1, by rw [h1, List.length_take], h2⟩
  intro n
  induction n with
  | zero => intro s; simp [dequeueN]
  | succ n ih =>
    intro s
    obtain ⟨q, pd⟩ := s
    cases q with
    | nil => simpa [dequeueN, get_next_command] using ih ⟨[], pd⟩
    | cons c cs => simpa [dequeueN, get_next_command] using ih ⟨cs, pd⟩

/-- C6: polling an empty queue returns `None` and leaves the state (hence the
queue) unchanged, and the `None` result is distinguishable from every
delivered command, including one with empty args. -/
theorem poll_empty_queue (s : ServerState) (h : s.command_queue = []) :
    get_next_command s = (s, none) ∧
    (get_next_command s).1.command_queue = [] ∧
    ∀ c : Command, (none : Option Command) ≠ some c := by
  obtain ⟨q, pd⟩ := s
  have hq : q = [] := h
  subst hq
  exact ⟨rfl, rfl, fun c hc => Option.noConfusion hc⟩

/-- Witness for C6 at the empty server state, with the empty-args command
`{player: None, command: "", args: []}` as the potential collision. -/
theorem poll_empty_queue_witness :
    get_next_command ⟨[], []⟩ = (⟨[], []⟩, none) ∧
    (none : Option Command) ≠ some ⟨none, "", []⟩ := by
  obtain ⟨h1, _, h3⟩ := poll_empty_queue ⟨[], []⟩ rfl
  exact ⟨h1, h3 ⟨none, "", []⟩⟩

/-- C7: from an empty queue, submitting
`{"player": "Alice", "command": "give", "args": ["diamond_sword", "1"]}`
echoes that exact command, the next poll returns it, and a second poll
returns `None`. -/
theorem submit_poll_round_trip :
    (post_api_command ⟨[], []⟩ aliceGiveInput).2 = some aliceGive ∧
    (get_next_command (post_api_command ⟨[], []⟩ aliceGiveInput).1).2
      = some aliceGive ∧
    (get_next_command
      (get_next_command (post_api_command ⟨[], []⟩ aliceGiveInput).1).1).2
      = none :=
  ⟨rfl, rfl, rfl⟩

/-- C8: a command submitted with the `player` key absent validates to
`player = None`, is stored that way, and is returned by the next poll with
`player` still `None` — absence is preserved, never defaulted. -/
theorem absent_target_preserved (inp : CommandInput) (c : Command)
    (pd : List (String × PlayerInfo)) (hp : parseCommand inp = some c)
    (h : inp.player = .omitted) :
    c.player = none ∧
    (post_api_command ⟨[], pd⟩ inp).2 = some c ∧
    (get_next_command (post_api_command ⟨[], pd⟩ inp).1).2 = some c := by
  have hpl : c.player = none := by
    unfold parseCommand at hp
    rw [h] at hp
    split at hp
    · cases hp; rfl
    · exact absurd hp (by simp)
  refine ⟨hpl, ?_, ?_⟩ <;>
    simp [post_api_command, hp, receive_command, get_next_command]

/-- Witness for C8: the untargeted command body `{"command": "say", "args": []}`. -/
theorem absent_target_preserved_witness :
    untargetedSay.player = none ∧
    (post_api_command ⟨[], []⟩ untargetedInput).2 = some untargetedSay ∧
    (get_next_command (post_api_command ⟨[], []⟩ untargetedInput).1).2
      = some untargetedSay :=
  absent_target_preserved untargetedInput untargetedSay [] rfl rfl

/-- C3: publishing snapshot `p1` and then `p2` for the same key wholesale
replaces the first: reading the store back afterwards yields exactly `p2` for
that key, with no field of `p1` surviving. -/
theorem publish_wholesale_replace (s : ServerState) (p1 p2 : PlayerInfo)
    (h : p1.name = p2.name) :
    dictGet (get_all_player_info (update_player_info (update_player_info s p1) p2))
      p1.name = some p2 := by
  rw [h]
  simp only [get_all_player_info, update_player_info]
  exact dictGet_dictInsert_self _ _ _

/-- Witness for C3: publishing `samplePlayer2` then `samplePlayer` for
`"Alice"` reads back exactly `samplePlayer`. -/
theorem publish_wholesale_replace_witness :
    dictGet (get_all_player_info (update_player_info
      (update_player_info ⟨[], []⟩ samplePlayer2) samplePlayer))
      samplePlayer2.name = some samplePlayer :=
  publish_wholesale_replace ⟨[], []⟩ samplePlayer2 samplePlayer rfl

/-- C10: publishing a snapshot for one key leaves every other key's snapshot
exactly as it was, and never touches the command queue. -/
theorem publish_frame_other_keys (s : ServerState) (info : PlayerInfo)
    (k : String) (h : k ≠ info.name) :
    dictGet (get_all_player_info (update_player_info s info)) k
      = dictGet (get_all_player_info s) k ∧
    (update_player_info s info).command_queue = s.command_queue := by
  refine ⟨?_, rfl⟩
  simp only [get_all_player_info, update_player_info]
  exact dictGet_dictInsert_ne _ _ _ _ h

/-- Witness for C10: publishing `samplePlayer` (key `"Alice"`) leaves
`"Bob"`'s snapshot and the pending queue unchanged. -/
theorem publish_frame_other_keys_witness :
    dictGet (get_all_player_info (update_player_info
      ⟨[aliceGive], [("Bob", samplePlayerBob)]⟩ samplePlayer)) "Bob"
      = dictGet (get_all_player_info ⟨[aliceGive], [("Bob", samplePlayerBob)]⟩) "Bob" ∧
    (update_player_info ⟨[aliceGive], [("Bob", samplePlayerBob)]⟩ samplePlayer).command_queue
      = (⟨[aliceGive], [("Bob", samplePlayerBob)]⟩ : ServerState).command_queue :=
  publish_frame_other_keys ⟨[aliceGive], [("Bob", samplePlayerBob)]⟩ samplePlayer
    "Bob" (by decide)

/-- C5: a snapshot body missing the required `coords` fails validation before
the handler runs: the endpoint rejects it and the store is left exactly as it
was — any prior snapshot for any key remains the current value, and nothing
partial is stored. -/
theorem validation_failure_leaves_store (s : ServerState) (inp : PlayerInfoInput)
    (h : inp.coords = .omitted) :
    post_api_coords s inp = (s, false) ∧
    ∀ k, dictGet (get_all_player_info (post_api_coords s inp).1) k
      = dictGet (get_all_player_info s) k := by
  have hp : parsePlayerInfo inp = none := by
    unfold parsePlayerInfo
    rw [h]
    rcases inp.name.reqPrim with _ | nm <;> simp [JField.reqSub]
  constructor
  · simp [post_api_coords, hp]
  · intro k
    simp [post_api_coords, hp]

/-- Witness for C5: `missingCoordsInput` is rejected and `"Alice"`'s prior
snapshot is untouched. -/
theorem validation_failure_leaves_store_witness :
    post_api_coords ⟨[], [("Alice", samplePlayer)]⟩ missingCoordsInput
      = (⟨[], [("Alice", samplePlayer)]⟩, false) ∧
    dictGet (get_all_player_info
        (post_api_coords ⟨[], [("Alice", samplePlayer)]⟩ missingCoordsInput).1)
      "Alice"
      = dictGet (get_all_player_info ⟨[], [("Alice", samplePlayer)]⟩) "Alice" := by
  obtain ⟨h1, h2⟩ :=
    validation_failure_leaves_store ⟨[], [("Alice", samplePlayer)]⟩
      missingCoordsInput rfl
  exact ⟨h1, h2 "Alice"⟩

/-- C9: the inventory-change endpoint is atomic: an action other than `"add"`
or `"remove"` is rejected with a 400 and the state (queue included) is left
untouched; a valid action appends exactly one `inventory_edit` command with
args `[action, item]` targeted at the given player. -/
theorem change_inventory_atomic (s : ServerState) (ch : InventoryChange) :
    (ch.action ∉ (["add", "remove"] : List String) →
      change_inventory s ch = (s, .badRequest)) ∧
    (ch.action ∈ (["add", "remove"] : List String) →
      change_inventory s ch =
        ({ s with command_queue := s.command_queue ++
            [⟨some ch.player, "inventory_edit", [ch.action, ch.item]⟩] },
         .queued ⟨some ch.player, "inventory_edit", [ch.action, ch.item]⟩)) := by
  constructor <;> intro h <;> simp [change_inventory, h]

/-- Witness for C9: `"drop"` is rejected leaving the state unchanged, while
`"add"` queues exactly one `inventory_edit` command. -/
theorem change_inventory_atomic_witness :
    change_inventory ⟨[], []⟩ ⟨"Alice", "drop", "dirt"⟩ = (⟨[], []⟩, .badRequest) ∧
    change_inventory ⟨[], []⟩ ⟨"Alice", "add", "dirt"⟩ =
      (⟨[⟨some "Alice", "inventory_edit", ["add", "dirt"]⟩], []⟩,
       .queued ⟨some "Alice", "inventory_edit", ["add", "dirt"]⟩) := by
  refine ⟨(change_inventory_atomic ⟨[], []⟩ ⟨"Alice", "drop", "dirt"⟩).1 (by decide), ?_⟩
  exact (change_inventory_atomic ⟨[], []⟩ ⟨"Alice", "add", "dirt"⟩).2 (by decide)

/-- C2 (as stated) is false: the store does coerce some omitted optional
fields into defaults.  `samplePlayerInput` omits `currentAction`, yet it
validates (and is stored and read back) with `currentAction = "idle"`, not
with the field absent. -/
theorem absent_fields_claim_false : ¬ absentFieldsReadBackAbsent := by
  intro hcl
  have h := ((hcl ⟨[], []⟩ samplePlayerInput samplePlayer rfl).2.1) rfl
  rw [show dictGet (get_all_player_info (update_player_info ⟨[], []⟩ samplePlayer))
      samplePlayer.name = some samplePlayer from rfl] at h
  simp [samplePlayer] at h

/-- C2 (amended): a snapshot published with `armor` omitted reads back with
`armor` absent (`None`, not four empty slots) — and likewise for the
optional fields whose declared default is `None` — but optional fields with a
non-`None` default are coerced on validation: an omitted `currentAction`
becomes `"idle"`, an omitted item `displayName` becomes `""`, an omitted
`durabilityPercentage` becomes `100.0`, indistinguishable from observed
data. -/
theorem optional_field_defaults (s : ServerState) (inp : PlayerInfoInput)
    (p : PlayerInfo) (ii : ItemInfoInput) (it : ItemInfo)
    (hp : parsePlayerInfo inp = some p) (hi : parseItemInfo ii = some it) :
    (inp.armor = .omitted →
      dictGet (get_all_player_info (update_player_info s p)) p.name = some p ∧
      p.armor = none) ∧
    (inp.currentAction = .omitted → p.currentAction = some "idle") ∧
    (ii.displayName = .omitted → it.displayName = some "") ∧
    (ii.durabilityPercentage = .omitted → it.durabilityPercentage = some 100) := by
  refine ⟨fun ha => ⟨?_, ?_⟩, fun hc => ?_, fun hd => ?_, fun hdp => ?_⟩
  · simp only [get_all_player_info, update_player_info]
    exact dictGet_dictInsert_self _ _ _
  · unfold parsePlayerInfo at hp
    rw [ha] at hp
    split at hp
    · rename_i name coords inventory armor offhand enderChest status world ne hi'
        h1 h2 h3 h4 h5 h6 h7 h8 h9 h10
      simp only [JField.optSub, Option.some_inj] at h4
      subst h4
      cases hp
      rfl
    · exact absurd hp (by simp)
  · unfold parsePlayerInfo at hp
    rw [hc] at hp
    split at hp
    · cases hp; rfl
    · exact absurd hp (by simp)
  · unfold parseItemInfo at hi
    rw [hd] at hi
    split at hi
    · cases hi; rfl
    · exact absurd hi (by simp)
  · unfold parseItemInfo at hi
    rw [hdp] at hi
    split at hi
    · cases hi; rfl
    · exact absurd hi (by simp)

/-- Witness for the amended C2 at `samplePlayerInput` / `sampleItemInput`
(all optional fields omitted): `armor` reads back absent while
`currentAction`, `displayName` and `durabilityPercentage` come back as their
coerced defaults. -/
theorem optional_field_defaults_witness :
    dictGet (get_all_player_info (update_player_info ⟨[], []⟩ samplePlayer))
      samplePlayer.name = some samplePlayer ∧
    samplePlayer.armor = none ∧
    samplePlayer.currentAction = some "idle" ∧
    sampleItem.displayName = some "" ∧
    sampleItem.durabilityPercentage = some 100 := by
  obtain ⟨h1, h2, h3, h4⟩ := optional_field_defaults ⟨[], []⟩ samplePlayerInput
    samplePlayer sampleItemInput sampleItem rfl rfl
  obtain ⟨ha, hb⟩ := h1 rfl
  exact ⟨ha, hb, h2 rfl, h3 rfl, h4 rfl⟩

end BackendUI
